import Mathlib

/-!
Shallow embedding of the memvid MCP server's tool-dispatch layer
(src/mcp/src/index.ts) and proofs about its behaviour.

Modelling conventions:
* JavaScript runtime values that can appear in an argument bag or a parsed
  JSON document are modelled by `JsVal` (with a distinguished `undef` for
  JavaScript undefined, which property lookup on a missing key produces).
* JavaScript numbers are modelled as `Int`; fractional numeric literals and
  fractional string-to-number coercions are outside the model (no claim
  exercises them) and are mapped to a parse error / NaN respectively.
* Thrown JavaScript exceptions are modelled by `Except String`, carrying the
  exception message; the dispatcher's try/catch is the outer `wrapError`.
* The external process is an oracle `env : List JsVal → ProcOutcome` giving,
  for each spawned argument vector, either a close event (exit code plus the
  accumulated stdout/stderr) or a launch error; `runCli` converts the
  outcome into a `CliResult` exactly as the promise executor does.
* The dispatcher additionally returns the list of argument vectors it
  spawned, so that "never spawns a subprocess" is a statement about that
  trace.
-/

namespace Memvid

/-- JavaScript values as they occur in argument bags and parsed JSON
(src/mcp/src/index.ts works on untyped `unknown` values). -/
inductive JsVal where
  | undef : JsVal
  | null : JsVal
  | bool (b : Bool) : JsVal
  | num (n : Int) : JsVal
  | str (s : String) : JsVal
  | arr (xs : List JsVal) : JsVal
  | obj (fields : List (String × JsVal)) : JsVal
deriving Inhabited

/-- JavaScript truthiness, as used by `if (args?.x)` checks in the handler. -/
def truthy : JsVal → Bool
  | .undef => false
  | .null => false
  | .bool b => b
  | .num n => n != 0
  | .str s => !s.isEmpty
  | .arr _ => true
  | .obj _ => true

/-- Is the value null or undefined (a JS nullish value)? -/
def isNullish : JsVal → Bool
  | .undef => true
  | .null => true
  | _ => false

mutual

/-- JavaScript `String(v)` conversion, used by template interpolation and
by `String(args.limit)` in the handler. -/
def jsToString : JsVal → String
  | .undef => "undefined"
  | .null => "null"
  | .bool b => if b then "true" else "false"
  | .num n => toString n
  | .str s => s
  | .obj _ => "[object Object]"
  | .arr xs => joinElems xs

/-- `Array.prototype.join(",")`: elements stringified recursively, with
null and undefined elements rendered as the empty string. -/
def joinElems : List JsVal → String
  | [] => ""
  | [x] => if isNullish x then "" else jsToString x
  | x :: xs =>
      (if isNullish x then "" else jsToString x) ++ "," ++ joinElems xs

end

/-- JavaScript `a || b` short-circuit choice, as in
`data.error || result.stderr` and `hit.title || hit.uri`. -/
def jsOr (a b : JsVal) : JsVal := if truthy a then a else b

/-- First-match association lookup used for object property access. -/
def lookupField : List (String × JsVal) → String → Option JsVal
  | [], _ => none
  | (k2, v) :: fs, k => if k2 == k then some v else lookupField fs k

/-- Insert a key into an object, overwriting an existing binding in place
(JavaScript object assignment semantics, used when parsing JSON objects). -/
def putField : List (String × JsVal) → String → JsVal → List (String × JsVal)
  | [], k, v => [(k, v)]
  | (k2, v2) :: fs, k, v =>
      if k2 == k then (k2, v) :: fs else (k2, v2) :: putField fs k v

/-- JavaScript property access `v.k`: throws a TypeError on null or
undefined, yields undefined for a missing key or a non-object base. -/
def jsGet : JsVal → String → Except String JsVal
  | .undef, _ => .error "Cannot read properties of undefined"
  | .null, _ => .error "Cannot read properties of null"
  | .obj fs, k => .ok ((lookupField fs k).getD JsVal.undef)
  | _, _ => .ok JsVal.undef

/-- JavaScript `for (const x of v)`: arrays iterate their elements, strings
their characters; anything else throws a TypeError. -/
def forOf : JsVal → Except String (List JsVal)
  | .arr xs => .ok xs
  | .str s => .ok (s.toList.map (fun c => JsVal.str (String.mk [c])))
  | _ => .error "is not iterable"

/-- Numeric value of a decimal digit list. -/
def digitsToNat (ds : List Char) : Nat :=
  ds.foldl (fun a c => a * 10 + (c.toNat - 48)) 0

/-- JavaScript string-to-number coercion, restricted to integer literals
(optionally signed); fractional, exponent and hex forms, which no claim
exercises, are treated as NaN (`none`). The empty/whitespace string is 0. -/
def strToNumber (s : String) : Option Int :=
  let t := s.trim
  if t.isEmpty then some 0
  else
    match t.toList with
    | '-' :: rest =>
        if !rest.isEmpty && rest.all Char.isDigit
        then some (-(digitsToNat rest : Int)) else none
    | '+' :: rest =>
        if !rest.isEmpty && rest.all Char.isDigit
        then some (digitsToNat rest : Int) else none
    | l =>
        if l.all Char.isDigit then some (digitsToNat l : Int) else none

/-- JavaScript `ToNumber` coercion; `none` models NaN. Arrays coerce via
their string form, objects to NaN. -/
def jsToNumber : JsVal → Option Int
  | .num n => some n
  | .bool b => some (if b then 1 else 0)
  | .null => some 0
  | .undef => none
  | .str s => strToNumber s
  | .arr xs => strToNumber (jsToString (.arr xs))
  | .obj _ => none

/-! ## JSON parsing (the model of JSON.parse) -/

/-- The message JSON.parse throws on empty or truncated input. -/
def jsonEndMsg : String := "Unexpected end of JSON input"

/-- The message for any other malformed JSON input. -/
def jsonTokenMsg : String := "Unexpected token in JSON"

/-- Opening brace character, written without a literal brace. -/
def braceOpen : Char := Char.ofNat 123

/-- Closing brace character, written without a literal brace. -/
def braceClose : Char := Char.ofNat 125

/-- Drop leading JSON whitespace. -/
def skipWs : List Char → List Char
  | [] => []
  | c :: cs =>
      if c == ' ' || c == '\t' || c == '\n' || c == '\r'
      then skipWs cs else c :: cs

/-- Hexadecimal digit value, for unicode escapes. -/
def hexVal (c : Char) : Option Nat :=
  if c.isDigit then some (c.toNat - 48)
  else if 'a' ≤ c && c ≤ 'f' then some (c.toNat - 87)
  else if 'A' ≤ c && c ≤ 'F' then some (c.toNat - 70)
  else none

/-- Parse the body of a JSON string after the opening quote, returning the
decoded characters and the remaining input after the closing quote.
Surrogate-pair recombination of unicode escapes is not modelled. -/
def parseStrChars : List Char → Except String (List Char × List Char)
  | [] => .error jsonEndMsg
  | c :: cs =>
    if c == '\"' then .ok ([], cs)
    else if c == '\\' then
      match cs with
      | [] => .error jsonEndMsg
      | e :: cs2 =>
        if e == 'u' then
          match cs2 with
          | h1 :: h2 :: h3 :: h4 :: cs3 =>
            match hexVal h1, hexVal h2, hexVal h3, hexVal h4 with
            | some a, some b, some c2, some d => do
                let (s, rest) ← parseStrChars cs3
                .ok (Char.ofNat (((a * 16 + b) * 16 + c2) * 16 + d) :: s, rest)
            | _, _, _, _ => .error jsonTokenMsg
          | _ => .error jsonEndMsg
        else
          let esc : Option Char :=
            if e == '\"' then some '\"'
            else if e == '\\' then some '\\'
            else if e == '/' then some '/'
            else if e == 'n' then some '\n'
            else if e == 't' then some '\t'
            else if e == 'r' then some '\r'
            else if e == 'b' then some (Char.ofNat 8)
            else if e == 'f' then some (Char.ofNat 12)
            else none
          match esc with
          | some ch => do
              let (s, rest) ← parseStrChars cs2
              .ok (ch :: s, rest)
          | none => .error jsonTokenMsg
    else do
      let (s, rest) ← parseStrChars cs
      .ok (c :: s, rest)

/-- Split off a maximal run of leading decimal digits. -/
def takeDigits : List Char → List Char × List Char
  | [] => ([], [])
  | c :: cs =>
      if c.isDigit then
        let (ds, rest) := takeDigits cs
        (c :: ds, rest)
      else ([], c :: cs)

/-- Parse a JSON number. Only integer literals are modelled: a fractional
part or exponent (which no claim exercises) yields a parse error. -/
def parseIntLit (cs : List Char) : Except String (JsVal × List Char) :=
  let (neg, cs1) :=
    match cs with
    | '-' :: rest => (true, rest)
    | _ => (false, cs)
  let (ds, rest) := takeDigits cs1
  if ds.isEmpty then .error jsonTokenMsg
  else
    match rest with
    | '.' :: _ => .error "fractional JSON numbers are outside this model"
    | 'e' :: _ => .error "exponent JSON numbers are outside this model"
    | 'E' :: _ => .error "exponent JSON numbers are outside this model"
    | _ =>
        let n : Int := digitsToNat ds
        .ok (JsVal.num (if neg then -n else n), rest)

/-- Does `lit` start the input?  If so return the remainder. -/
def stripLit : List Char → List Char → Option (List Char)
  | [], cs => some cs
  | _, [] => none
  | l :: ls, c :: cs => if l == c then stripLit ls cs else none

mutual

/-- Parse one JSON value (fuel-bounded recursion; the fuel passed by
`jsonParse` always suffices since every nesting level consumes input). -/
def parseVal : Nat → List Char → Except String (JsVal × List Char)
  | 0, _ => .error jsonTokenMsg
  | fuel + 1, cs0 =>
    match skipWs cs0 with
    | [] => .error jsonEndMsg
    | c :: rest =>
      if c == '\"' then do
        let (s, r) ← parseStrChars rest
        .ok (JsVal.str (String.mk s), r)
      else if c == braceOpen then
        match skipWs rest with
        | [] => .error jsonEndMsg
        | c2 :: r2 =>
            if c2 == braceClose then .ok (JsVal.obj [], r2)
            else parseMembers fuel (c2 :: r2) []
      else if c == '[' then
        match skipWs rest with
        | [] => .error jsonEndMsg
        | c2 :: r2 =>
            if c2 == ']' then .ok (JsVal.arr [], r2)
            else parseElems fuel (c2 :: r2) []
      else
        match stripLit ['n', 'u', 'l', 'l'] (c :: rest) with
        | some r => .ok (JsVal.null, r)
        | none =>
          match stripLit ['t', 'r', 'u', 'e'] (c :: rest) with
          | some r => .ok (JsVal.bool true, r)
          | none =>
            match stripLit ['f', 'a', 'l', 's', 'e'] (c :: rest) with
            | some r => .ok (JsVal.bool false, r)
            | none => parseIntLit (c :: rest)

/-- Parse the members of a JSON object after its opening brace (with at
least one member present), accumulating parsed fields. -/
def parseMembers (fuel : Nat) (cs : List Char)
    (acc : List (String × JsVal)) : Except String (JsVal × List Char) :=
  match fuel with
  | 0 => .error jsonTokenMsg
  | fuel + 1 =>
    match skipWs cs with
    | [] => .error jsonEndMsg
    | c :: rest =>
      if c == '\"' then do
        let (k, r1) ← parseStrChars rest
        match skipWs r1 with
        | ':' :: r2 => do
            let (v, r3) ← parseVal fuel r2
            let acc2 := putField acc (String.mk k) v
            match skipWs r3 with
            | ',' :: r4 => parseMembers fuel r4 acc2
            | c2 :: r4 =>
                if c2 == braceClose then .ok (JsVal.obj acc2, r4)
                else .error jsonTokenMsg
            | [] => .error jsonEndMsg
        | _ :: _ => .error jsonTokenMsg
        | [] => .error jsonEndMsg
      else .error jsonTokenMsg

/-- Parse the elements of a JSON array after its opening bracket (with at
least one element present), accumulating parsed values. -/
def parseElems (fuel : Nat) (cs : List Char)
    (acc : List JsVal) : Except String (JsVal × List Char) :=
  match fuel with
  | 0 => .error jsonTokenMsg
  | fuel + 1 => do
    let (v, r1) ← parseVal fuel cs
    match skipWs r1 with
    | ',' :: r2 => parseElems fuel r2 (acc ++ [v])
    | ']' :: r2 => .ok (JsVal.arr (acc ++ [v]), r2)
    | _ :: _ => .error jsonTokenMsg
    | [] => .error jsonEndMsg

end

/-- The model of `JSON.parse`: empty (or all-whitespace) input throws
`Unexpected end of JSON input`, as in the handler's parse of an empty
stdout; trailing garbage after the document is rejected. -/
def jsonParse (s : String) : Except String JsVal :=
  match skipWs s.toList with
  | [] => .error jsonEndMsg
  | cs => do
      let (v, rest) ← parseVal (s.length + 1) cs
      match skipWs rest with
      | [] => .ok v
      | _ => .error jsonTokenMsg

/-! ## Date and number formatting helpers used by the success renderers -/

/-- Left-pad a natural number with zeros to the given width. -/
def padZero (width n : Nat) : String :=
  let s := toString n
  if s.length < width then String.mk (List.replicate (width - s.length) '0') ++ s
  else s

/-- Convert days since the Unix epoch to a proleptic-Gregorian civil date
(year, month, day), by the standard era/day-of-era decomposition. -/
def civilFromDays (z0 : Int) : Int × Nat × Nat :=
  let z := z0 + 719468
  let era := Int.fdiv z 146097
  let doe := (z - era * 146097).toNat
  let yoe := (doe - doe / 1460 + doe / 36524 - doe / 146096) / 365
  let doy := doe - (365 * yoe + yoe / 4 - yoe / 100)
  let mp := (5 * doy + 2) / 153
  let d := doy - (153 * mp + 2) / 5 + 1
  let m := if mp < 10 then mp + 3 else mp - 9
  let y := (yoe : Int) + era * 400 + (if m ≤ 2 then 1 else 0)
  (y, m, d)

/-- Render a millisecond timestamp as `Date.prototype.toISOString` does
(years outside 0..9999 use the six-digit expanded form). -/
def isoOfMs (ms : Int) : String :=
  let days := Int.fdiv ms 86400000
  let msod := (ms - days * 86400000).toNat
  let ymd := civilFromDays days
  let y := ymd.1
  let yearStr :=
    if 0 ≤ y ∧ y ≤ 9999 then padZero 4 y.toNat
    else (if y < 0 then "-" else "+") ++ padZero 6 y.natAbs
  yearStr ++ "-" ++ padZero 2 ymd.2.1 ++ "-" ++ padZero 2 ymd.2.2 ++ "T" ++
    padZero 2 (msod / 3600000) ++ ":" ++ padZero 2 (msod % 3600000 / 60000) ++
    ":" ++ padZero 2 (msod % 60000 / 1000) ++ "." ++ padZero 3 (msod % 1000) ++ "Z"

/-- `new Date(ms).toISOString()`: a NaN or out-of-range time value throws
a RangeError (`Invalid time value`). -/
def jsToISO (msOpt : Option Int) : Except String String :=
  match msOpt with
  | none => .error "Invalid time value"
  | some ms =>
      if ms.natAbs > 8640000000000000 then .error "Invalid time value"
      else .ok (isoOfMs ms)

/-- `entry.timestamp * 1000` as a JavaScript multiplication: coerce to a
number, `none` propagating NaN. -/
def jsMul1000 (v : JsVal) : Option Int := (jsToNumber v).map (· * 1000)

/-- `(n / 1024).toFixed(1)` for the stats size line: exact rational
rounding to one decimal, half rounded up; NaN renders as `NaN`. Binary
floating-point rounding artifacts and negative sizes (never produced by
the store) are not modelled bit-exactly. -/
def kbFixed1 (sz : Option Int) : String :=
  match sz with
  | none => "NaN"
  | some s =>
      let n := Int.fdiv (s * 10 + 512) 1024
      let ip := Int.fdiv n 10
      toString ip ++ "." ++ toString (n - 10 * ip).toNat

/-- `v.slice(0, 100)` as applied to `entry.preview`, followed by the
template interpolation of its result: strings give their first 100
characters (the model counts characters where JavaScript counts UTF-16
units); arrays slice then stringify; nullish bases throw a TypeError, and
other bases have no `slice` method. -/
def jsSlice100 : JsVal → Except String String
  | .undef => .error "Cannot read properties of undefined"
  | .null => .error "Cannot read properties of null"
  | .str s => .ok (s.take 100)
  | .arr xs => .ok (jsToString (JsVal.arr (xs.take 100)))
  | _ => .error "slice is not a function"

/-! ## Process invoker and path resolver (src/mcp/src/index.ts lines 18-77) -/

/-- The process-wide configuration read once at startup (lines 18-22):
`DEFAULT_MEMORY_PATH = process.env.MEMVID_DEFAULT_PATH || ""` and
`CLI_PATH = process.env.MEMVID_CLI_PATH || "memvid"`. -/
structure Config where
  defaultMemoryPath : String
  cliPath : String
deriving DecidableEq

/-- The `CliResult` interface (lines 24-28). -/
structure CliResult where
  success : Bool
  stdout : String
  stderr : String
deriving DecidableEq

/-- What the spawned child process does: either a `close` event with an
exit code (`none` models a null code, i.e. termination by signal) and the
accumulated stdout/stderr text, or an `error` event because the binary
could not be located or started. -/
inductive ProcOutcome where
  | close (code : Option Int) (stdout stderr : String) : ProcOutcome
  | launchError (message : String) : ProcOutcome

/-- `runCli` (lines 33-66): the promise always resolves, never rejects.
On `close`, success iff the exit code is exactly 0, with both streams
trimmed; on a launch `error`, success false, empty stdout, and the
operating-system error message as stderr. -/
def runCli (outcome : ProcOutcome) : CliResult :=
  match outcome with
  | .close code stdout stderr => ⟨code == some 0, stdout.trim, stderr.trim⟩
  | .launchError message => ⟨false, "", message⟩

/-- The error message thrown when no path can be resolved (lines 74-76). -/
def noPathMsg : String :=
  "No memory file path provided. Set MEMVID_DEFAULT_PATH or provide \x27path\x27 parameter."

/-- `resolvePath` (lines 71-77): a truthy explicit argument wins; else a
non-empty configured default; else throw. The argument is a raw bag value
(`args?.path as string | undefined` is an unchecked cast at run time). -/
def resolvePath (cfg : Config) (inputPath : JsVal) : Except String JsVal :=
  if truthy inputPath then .ok inputPath
  else if cfg.defaultMemoryPath ≠ "" then .ok (JsVal.str cfg.defaultMemoryPath)
  else .error noPathMsg

/-! ## Tool schema registry (src/mcp/src/index.ts lines 80-200) -/

/-- One property of a tool's input schema: its name, declared type, and,
for arrays, the declared element type. Description strings of properties
are inert for every claim and are elided here. -/
structure SchemaProperty where
  name : String
  type : String
  items : Option String := none
deriving DecidableEq

/-- A tool's input schema: the root type, declared properties, required
property names. -/
structure InputSchema where
  type : String
  properties : List SchemaProperty
  required : List String
deriving DecidableEq

/-- One entry of the static tool registry. -/
structure ToolDef where
  name : String
  description : String
  inputSchema : InputSchema
deriving DecidableEq

/-- The static `TOOLS` registry (lines 80-200), in source order. The
source omits the `required` key entirely for `memory_list` and
`memory_stats`; that is modelled as the empty list. -/
def TOOLS : List ToolDef := [
  { name := "memory_remember",
    description := "Store knowledge in memory. Use this to save insights, solutions, or information for later recall. Content is indexed for full-text search.",
    inputSchema :=
      { type := "object",
        properties := [
          { name := "path", type := "string" },
          { name := "content", type := "string" },
          { name := "uri", type := "string" },
          { name := "title", type := "string" },
          { name := "tags", type := "array", items := some "string" }],
        required := ["content"] } },
  { name := "memory_recall",
    description := "Search memory for relevant knowledge. Returns matching content with snippets. Use scope to filter by URI prefix.",
    inputSchema :=
      { type := "object",
        properties := [
          { name := "path", type := "string" },
          { name := "query", type := "string" },
          { name := "scope", type := "string" },
          { name := "limit", type := "number" }],
        required := ["query"] } },
  { name := "memory_list",
    description := "Browse memory chronologically. Returns recent entries with previews. Use to see what knowledge is stored.",
    inputSchema :=
      { type := "object",
        properties := [
          { name := "path", type := "string" },
          { name := "limit", type := "number" },
          { name := "since", type := "number" },
          { name := "until", type := "number" }],
        required := [] } },
  { name := "memory_stats",
    description := "Get statistics about the memory file. Shows frame count, size, and index status.",
    inputSchema :=
      { type := "object",
        properties := [
          { name := "path", type := "string" }],
        required := [] } },
  { name := "memory_create",
    description := "Create a new memory file. Only needed if starting fresh - memory_remember auto-creates if file doesn\x27t exist.",
    inputSchema :=
      { type := "object",
        properties := [
          { name := "path", type := "string" }],
        required := ["path"] } }]

/-! ## The call-tool request handler (src/mcp/src/index.ts lines 221-395) -/

/-- One `{ type: "text", text: ... }` content block of a response. -/
structure ContentBlock where
  type : String
  text : String
deriving DecidableEq

/-- The response returned to the protocol: an ordered list of content
blocks. -/
structure ToolResponse where
  content : List ContentBlock
deriving DecidableEq

/-- Build the single-text-block response every branch of the handler
returns. -/
def mkText (t : String) : ToolResponse :=
  ⟨[{ type := "text", text := t }]⟩

/-- The request's argument bag (`request.params.arguments`), possibly
absent. -/
abbrev Bag := List (String × JsVal)

/-- `args?.k`: optional-chained property read on the argument bag. -/
def bagGet (args : Option Bag) (k : String) : JsVal :=
  match args with
  | none => JsVal.undef
  | some bag => (lookupField bag k).getD JsVal.undef

/-- `if (args?.k) cliArgs.push(flag, args.k)`: emit the flag and the raw
bag value iff the value is truthy. -/
def flagIf (flag : String) (v : JsVal) : List JsVal :=
  if truthy v then [JsVal.str flag, v] else []

/-- `if (args?.k) cliArgs.push(flag, String(args.k))`: as `flagIf` but the
value is stringified, as for `--limit`, `--since` and `--until`. -/
def flagStrIf (flag : String) (v : JsVal) : List JsVal :=
  if truthy v then [JsVal.str flag, JsVal.str (jsToString v)] else []

/-- `for (const tag of args.tags) cliArgs.push("-t", tag)`. -/
def tagArgs : List JsVal → List JsVal
  | [] => []
  | t :: ts => JsVal.str "-t" :: t :: tagArgs ts

/-- `if (args?.tags && Array.isArray(args.tags)) ...` (lines 239-243):
only an array value contributes `-t` pairs (arrays are always truthy, so
the truthiness guard adds nothing beyond the `Array.isArray` test). -/
def tagFlags : JsVal → List JsVal
  | .arr xs => tagArgs xs
  | _ => []

/-- The response text of the `memory_remember` branch after the process
ran (lines 245-257): parse stdout, then either `Stored in frame
{frame_id}` or `Error: {data.error || result.stderr}`. -/
def rememberText (result : CliResult) : Except String String := do
  let data ← jsonParse result.stdout
  if result.success then
    let fid ← jsGet data "frame_id"
    pure ("Stored in frame " ++ jsToString fid)
  else
    let err ← jsGet data "error"
    pure ("Error: " ++ jsToString (jsOr err (JsVal.str result.stderr)))

/-- The response text of the `memory_recall` branch after the process ran
(lines 271-291): parse stdout, error branch as for remember, success
branch the `Found ... results` header followed by one block per hit. -/
def recallText (result : CliResult) : Except String String := do
  let data ← jsonParse result.stdout
  if !result.success then
    let err ← jsGet data "error"
    pure ("Error: " ++ jsToString (jsOr err (JsVal.str result.stderr)))
  else
    let totalHits ← jsGet data "total_hits"
    let query ← jsGet data "query"
    let hitsVal ← jsGet data "hits"
    let hits ← forOf hitsVal
    hits.foldlM (fun text hit => do
        let title ← jsGet hit "title"
        let uri ← jsGet hit "uri"
        let fid ← jsGet hit "frame_id"
        let snippet ← jsGet hit "snippet"
        pure (text ++ "**" ++ jsToString (jsOr title uri) ++ "** (frame " ++
          jsToString fid ++ ")\n" ++ jsToString snippet ++ "\n\n"))
      ("Found " ++ jsToString totalHits ++ " results for \"" ++
        jsToString query ++ "\":\n\n")

/-- The response text of the `memory_list` branch after the process ran
(lines 308-329): parse stdout, error branch as before, success branch the
`Memory contains ... entries` header followed by one block per entry. -/
def listText (result : CliResult) : Except String String := do
  let data ← jsonParse result.stdout
  if !result.success then
    let err ← jsGet data "error"
    pure ("Error: " ++ jsToString (jsOr err (JsVal.str result.stderr)))
  else
    let total ← jsGet data "total"
    let entriesVal ← jsGet data "entries"
    let entries ← forOf entriesVal
    entries.foldlM (fun text entry => do
        let ts ← jsGet entry "timestamp"
        let date ← jsToISO (jsMul1000 ts)
        let uri ← jsGet entry "uri"
        let fid ← jsGet entry "frame_id"
        let preview ← jsGet entry "preview"
        let sliced ← jsSlice100 preview
        pure (text ++ "**" ++
          jsToString (jsOr uri (JsVal.str ("frame-" ++ jsToString fid))) ++
          "** (" ++ date ++ ")\n" ++ sliced ++ "...\n\n"))
      ("Memory contains " ++ jsToString total ++ " entries:\n\n")

/-- The response text of the `memory_stats` branch after the process ran
(lines 335-354): parse stdout, error branch as before, success branch the
fixed five-line summary. -/
def statsText (result : CliResult) : Except String String := do
  let data ← jsonParse result.stdout
  if !result.success then
    let err ← jsGet data "error"
    pure ("Error: " ++ jsToString (jsOr err (JsVal.str result.stderr)))
  else
    let p ← jsGet data "path"
    let active ← jsGet data "active_frame_count"
    let frames ← jsGet data "frame_count"
    let size ← jsGet data "size_bytes"
    let lex ← jsGet data "has_lex_index"
    let vec ← jsGet data "has_vec_index"
    pure ("Memory: " ++ jsToString p ++ "\n" ++
      "Frames: " ++ jsToString active ++ " active / " ++ jsToString frames ++
      " total\n" ++
      "Size: " ++ kbFixed1 (jsToNumber size) ++ " KB\n" ++
      "Full-text search: " ++ (if truthy lex then "enabled" else "disabled") ++
      "\n" ++
      "Vector search: " ++ (if truthy vec then "enabled" else "disabled"))

/-- The response text of the `memory_create` branch after the process ran
(lines 365-377): parse stdout, then either `Created memory file: {path}`
or `Error: {data.error || result.stderr}`. -/
def createText (result : CliResult) : Except String String := do
  let data ← jsonParse result.stdout
  if result.success then
    let p ← jsGet data "path"
    pure ("Created memory file: " ++ jsToString p)
  else
    let err ← jsGet data "error"
    pure ("Error: " ++ jsToString (jsOr err (JsVal.str result.stderr)))

/-- The subprocess environment: for each spawned argument vector, what the
child process does. Argument-vector validation performed by `spawn`
itself (e.g. rejecting an undefined element) is not modelled; the oracle
is total. -/
abbrev ProcEnv := List JsVal → ProcOutcome

/-- The `memory_remember` case of the switch (lines 226-258): resolve the
path, compile `put` arguments, run the CLI once, interpret. Returns the
interpretation outcome together with the spawned argument vectors. -/
def rememberCase (cfg : Config) (env : ProcEnv) (args : Option Bag) :
    Except String ToolResponse × List (List JsVal) :=
  match resolvePath cfg (bagGet args "path") with
  | .error e => (.error e, [])
  | .ok memPath =>
    let cliArgs := JsVal.str "put" :: memPath ::
      (flagIf "--content" (bagGet args "content") ++
        flagIf "--uri" (bagGet args "uri") ++
        flagIf "--title" (bagGet args "title") ++
        tagFlags (bagGet args "tags"))
    ((rememberText (runCli (env cliArgs))).map mkText, [cliArgs])

/-- The `memory_recall` case of the switch (lines 260-292): the query is
pushed unconditionally as a positional argument. -/
def recallCase (cfg : Config) (env : ProcEnv) (args : Option Bag) :
    Except String ToolResponse × List (List JsVal) :=
  match resolvePath cfg (bagGet args "path") with
  | .error e => (.error e, [])
  | .ok memPath =>
    let cliArgs := JsVal.str "search" :: memPath :: bagGet args "query" ::
      (flagIf "--scope" (bagGet args "scope") ++
        flagStrIf "--limit" (bagGet args "limit"))
    ((recallText (runCli (env cliArgs))).map mkText, [cliArgs])

/-- The `memory_list` case of the switch (lines 294-330). -/
def listCase (cfg : Config) (env : ProcEnv) (args : Option Bag) :
    Except String ToolResponse × List (List JsVal) :=
  match resolvePath cfg (bagGet args "path") with
  | .error e => (.error e, [])
  | .ok memPath =>
    let cliArgs := JsVal.str "timeline" :: memPath ::
      (flagStrIf "--limit" (bagGet args "limit") ++
        flagStrIf "--since" (bagGet args "since") ++
        flagStrIf "--until" (bagGet args "until"))
    ((listText (runCli (env cliArgs))).map mkText, [cliArgs])

/-- The `memory_stats` case of the switch (lines 332-355). -/
def statsCase (cfg : Config) (env : ProcEnv) (args : Option Bag) :
    Except String ToolResponse × List (List JsVal) :=
  match resolvePath cfg (bagGet args "path") with
  | .error e => (.error e, [])
  | .ok memPath =>
    let cliArgs := [JsVal.str "stats", memPath]
    ((statsText (runCli (env cliArgs))).map mkText, [cliArgs])

/-- The `memory_create` case of the switch (lines 357-378): the path is
taken literally from the bag (no resolution through `resolvePath`); a
falsy path yields the `Error: path is required` response without spawning
anything. -/
def createCase (env : ProcEnv) (args : Option Bag) :
    Except String ToolResponse × List (List JsVal) :=
  let memPath := bagGet args "path"
  if !truthy memPath then
    (.ok (mkText "Error: path is required"), [])
  else
    let cliArgs := [JsVal.str "create", memPath]
    ((createText (runCli (env cliArgs))).map mkText, [cliArgs])

/-- The body of the CallToolRequest handler's `try` block: the switch on
the tool name (lines 225-384), with the default case returning
`Unknown tool: {name}` and spawning nothing. -/
def callToolInner (cfg : Config) (env : ProcEnv) (name : String)
    (args : Option Bag) : Except String ToolResponse × List (List JsVal) :=
  match name with
  | "memory_remember" => rememberCase cfg env args
  | "memory_recall" => recallCase cfg env args
  | "memory_list" => listCase cfg env args
  | "memory_stats" => statsCase cfg env args
  | "memory_create" => createCase env args
  | _ => (.ok (mkText ("Unknown tool: " ++ name)), [])

/-- The handler's catch block (lines 385-394): any thrown fault becomes a
single `Error: {message}` text response. -/
def wrapError : Except String ToolResponse → ToolResponse
  | .ok resp => resp
  | .error msg => mkText ("Error: " ++ msg)

/-- The complete CallToolRequest handler (lines 221-395): the switch
wrapped in the try/catch, returning the response and the spawn trace. -/
def handleCallTool (cfg : Config) (env : ProcEnv) (name : String)
    (args : Option Bag) : ToolResponse × List (List JsVal) :=
  (wrapError (callToolInner cfg env name args).1,
    (callToolInner cfg env name args).2)

/-! ## Helper lemmas -/

/-- A mapped-into-`mkText` computation can only succeed with a
single-text-block response. -/
theorem exceptMapMkText {e : Except String String} {r : ToolResponse}
    (h : e.map mkText = .ok r) : ∃ t, r = mkText t := by
  cases e with
  | error m => simp [Except.map] at h
  | ok t => exact ⟨t, by simpa [Except.map] using h.symm⟩

/-- The `memory_remember` case only succeeds with a single-text-block
response. -/
theorem rememberShape (cfg : Config) (env : ProcEnv) (args : Option Bag) :
    ∀ r, (rememberCase cfg env args).1 = .ok r → ∃ t, r = mkText t := by
  intro r h
  unfold rememberCase at h
  split at h
  · simp at h
  · exact exceptMapMkText h

/-- The `memory_recall` case only succeeds with a single-text-block
response. -/
theorem recallShape (cfg : Config) (env : ProcEnv) (args : Option Bag) :
    ∀ r, (recallCase cfg env args).1 = .ok r → ∃ t, r = mkText t := by
  intro r h
  unfold recallCase at h
  split at h
  · simp at h
  · exact exceptMapMkText h

/-- The `memory_list` case only succeeds with a single-text-block
response. -/
theorem listShape (cfg : Config) (env : ProcEnv) (args : Option Bag) :
    ∀ r, (listCase cfg env args).1 = .ok r → ∃ t, r = mkText t := by
  intro r h
  unfold listCase at h
  split at h
  · simp at h
  · exact exceptMapMkText h

/-- The `memory_stats` case only succeeds with a single-text-block
response. -/
theorem statsShape (cfg : Config) (env : ProcEnv) (args : Option Bag) :
    ∀ r, (statsCase cfg env args).1 = .ok r → ∃ t, r = mkText t := by
  intro r h
  unfold statsCase at h
  split at h
  · simp at h
  · exact exceptMapMkText h

/-- The `memory_create` case only succeeds with a single-text-block
response. -/
theorem createShape (env : ProcEnv) (args : Option Bag) :
    ∀ r, (createCase env args).1 = .ok r → ∃ t, r = mkText t := by
  intro r h
  simp only [createCase] at h
  split at h
  · exact ⟨_, by injection h with h2; exact h2.symm⟩
  · exact exceptMapMkText h

/-- Every branch of the switch only succeeds with a single-text-block
response. -/
theorem innerShape (cfg : Config) (env : ProcEnv) (name : String)
    (args : Option Bag) :
    ∀ r, (callToolInner cfg env name args).1 = .ok r → ∃ t, r = mkText t := by
  intro r h
  unfold callToolInner at h
  split at h
  · exact rememberShape cfg env args r h
  · exact recallShape cfg env args r h
  · exact listShape cfg env args r h
  · exact statsShape cfg env args r h
  · exact createShape env args r h
  · exact ⟨_, by injection h with h2; exact h2.symm⟩

/-- Reduction of a successful bind in the `Except` monad. -/
theorem exceptBindOk {α β : Type} (a : α) (f : α → Except String β) :
    (Except.ok a >>= f) = f a := rfl

/-- The `-t` pair compilation is exactly a flat map over the tag list. -/
theorem tagArgs_eq_flatMap (ts : List String) :
    tagArgs (ts.map JsVal.str) =
      ts.flatMap (fun t => [JsVal.str "-t", JsVal.str t]) := by
  induction ts with
  | nil => rfl
  | cons t ts ih => simp [tagArgs, List.flatMap_cons, ih]

/-! ## Claim theorems -/

/-- Claim C1: for every tool name and argument bag (and every process
environment and configuration), the handler produces exactly one response
with exactly one content block of type `text`, and any fault thrown inside
the switch is converted into a response whose text is `Error: {message}`
rather than propagating to the caller. -/
theorem claim1_dispatch_total_single_block (cfg : Config) (env : ProcEnv)
    (name : String) (args : Option Bag) :
    (∃ t, (handleCallTool cfg env name args).1 = mkText t) ∧
    (handleCallTool cfg env name args).1.content.length = 1 ∧
    (∀ b ∈ (handleCallTool cfg env name args).1.content, b.type = "text") ∧
    (∀ msg, (callToolInner cfg env name args).1 = .error msg →
      (handleCallTool cfg env name args).1 = mkText ("Error: " ++ msg)) := by
  cases h : (callToolInner cfg env name args).1 with
  | error m =>
    have hr : (handleCallTool cfg env name args).1 = mkText ("Error: " ++ m) := by
      simp [handleCallTool, h, wrapError]
    refine ⟨⟨_, hr⟩, by simp [hr, mkText], by simp [hr, mkText], ?_⟩
    intro msg hmsg
    injection hmsg with h2
    exact h2 ▸ hr
  | ok r =>
    obtain ⟨t, ht⟩ := innerShape cfg env name args r h
    have hr : (handleCallTool cfg env name args).1 = mkText t := by
      simp [handleCallTool, h, wrapError, ht]
    refine ⟨⟨t, hr⟩, by simp [hr, mkText], by simp [hr, mkText], ?_⟩
    intro msg hmsg
    exact Except.noConfusion hmsg

/-- Claim C1 witness: at a concrete faulting input (no path argument, no
configured default) the thrown configuration error becomes the
`Error: {message}` response. -/
theorem claim1_dispatch_total_single_block_witness :
    (handleCallTool ⟨"", "memvid"⟩ (fun _ => ProcOutcome.close (some 0) "" "")
        "memory_remember" none).1 = mkText ("Error: " ++ noPathMsg) :=
  (claim1_dispatch_total_single_block ⟨"", "memvid"⟩
      (fun _ => ProcOutcome.close (some 0) "" "") "memory_remember" none).2.2.2
    noPathMsg rfl

/-- Claim C2: a truthy explicit path is returned unchanged regardless of
the configured default; an undefined path falls back to a non-empty
configured default; with no default, an undefined or empty (falsy)
explicit path fails with the configuration error naming
`MEMVID_DEFAULT_PATH` and the `path` parameter. -/
theorem claim2_resolvePath_contract :
    (∀ (cfg : Config) (s : String), s ≠ "" →
        resolvePath cfg (JsVal.str s) = .ok (JsVal.str s)) ∧
    (∀ cfg : Config, cfg.defaultMemoryPath ≠ "" →
        resolvePath cfg JsVal.undef = .ok (JsVal.str cfg.defaultMemoryPath)) ∧
    (∀ cliPath : String,
        resolvePath ⟨"", cliPath⟩ JsVal.undef = .error noPathMsg) ∧
    (∀ (cliPath : String) (v : JsVal), truthy v = false →
        resolvePath ⟨"", cliPath⟩ v = .error noPathMsg) := by
  refine ⟨?_, ?_, ?_, ?_⟩
  · intro cfg s hs
    have : s.isEmpty = false := by
      cases hi : s.isEmpty
      · rfl
      · exact absurd ((String.isEmpty_iff s).mp hi) hs
    simp [resolvePath, truthy, this]
  · intro cfg hd
    simp [resolvePath, truthy, hd]
  · intro cliPath
    simp [resolvePath, truthy]
  · intro cliPath v hv
    simp [resolvePath, hv]

/-- Claim C2 witness: the spec's worked examples, evaluated concretely. -/
theorem claim2_resolvePath_contract_witness :
    resolvePath ⟨"/default/path.mv2", "memvid"⟩ (JsVal.str "/custom/path.mv2") =
        .ok (JsVal.str "/custom/path.mv2") ∧
    resolvePath ⟨"/default/path.mv2", "memvid"⟩ JsVal.undef =
        .ok (JsVal.str "/default/path.mv2") ∧
    resolvePath ⟨"", "memvid"⟩ JsVal.undef = .error noPathMsg :=
  ⟨claim2_resolvePath_contract.1 ⟨"/default/path.mv2", "memvid"⟩
      "/custom/path.mv2" (by decide),
    claim2_resolvePath_contract.2.1 ⟨"/default/path.mv2", "memvid"⟩ (by decide),
    claim2_resolvePath_contract.2.2.1 "memvid"⟩

/-- Claim C3: with resolved path `/m.mv2` (from the configured default)
and bag `content: "x", tags`, the compiled `put` vector is the positional
arguments followed by `--content x` and one `-t {tag}` pair per tag, in
input order with no de-duplication; at `tags = ["a", "b"]` it is exactly
`put /m.mv2 --content x -t a -t b`. -/
theorem claim3_remember_compile (cliPath : String) (env : ProcEnv)
    (tags : List String) :
    (handleCallTool ⟨"/m.mv2", cliPath⟩ env "memory_remember"
        (some [("content", JsVal.str "x"),
               ("tags", JsVal.arr (tags.map JsVal.str))])).2 =
      [JsVal.str "put" :: JsVal.str "/m.mv2" :: JsVal.str "--content" ::
        JsVal.str "x" ::
          tags.flatMap (fun t => [JsVal.str "-t", JsVal.str t])] ∧
    (handleCallTool ⟨"/m.mv2", cliPath⟩ env "memory_remember"
        (some [("content", JsVal.str "x"),
               ("tags", JsVal.arr [JsVal.str "a", JsVal.str "b"])])).2 =
      [[JsVal.str "put", JsVal.str "/m.mv2", JsVal.str "--content",
        JsVal.str "x", JsVal.str "-t", JsVal.str "a", JsVal.str "-t",
        JsVal.str "b"]] := by
  have hx : "x".isEmpty = false := rfl
  constructor
  · rw [← tagArgs_eq_flatMap]
    simp [handleCallTool, callToolInner, rememberCase, resolvePath, truthy,
      bagGet, lookupField, flagIf, tagFlags, hx]
  · simp [handleCallTool, callToolInner, rememberCase, resolvePath, truthy,
      bagGet, lookupField, flagIf, tagFlags, tagArgs, hx]

/-- Claim C4: the static registry has exactly the five tools in order,
their names are pairwise distinct, and each schema's `required` names all
appear among its declared property names. -/
theorem claim4_registry_wellformed :
    TOOLS.length = 5 ∧
    TOOLS.map ToolDef.name =
      ["memory_remember", "memory_recall", "memory_list", "memory_stats",
        "memory_create"] ∧
    (TOOLS.map ToolDef.name).Nodup ∧
    ∀ t ∈ TOOLS, ∀ r ∈ t.inputSchema.required,
      r ∈ t.inputSchema.properties.map SchemaProperty.name := by
  refine ⟨rfl, rfl, by decide, by decide⟩

/-- Claim C5: when the process succeeded and its stdout parses to an
object whose `frame_id` is the number `n`, the `memory_remember` renderer
produces exactly `Stored in frame {n}`. -/
theorem claim5_stored_frame (res : CliResult) (n : Int)
    (h1 : res.success = true)
    (h2 : jsonParse res.stdout = .ok (JsVal.obj [("frame_id", JsVal.num n)])) :
    rememberText res = .ok ("Stored in frame " ++ toString n) := by
  simp [rememberText, h2, h1, jsGet, lookupField, jsToString, exceptBindOk]

/-- Claim C5 witness: the spec's worked example, stdout
`\x7b"frame_id": 42\x7d`, renders `Stored in frame 42`. -/
theorem claim5_stored_frame_witness :
    rememberText ⟨true, "\x7b\"frame_id\": 42\x7d", ""⟩ =
      .ok "Stored in frame 42" :=
  claim5_stored_frame ⟨true, "\x7b\"frame_id\": 42\x7d", ""⟩ 42 rfl rfl

/-- Claim C6 counterexample: a failed result whose stdout parses to an
object that does contain an `error` field, albeit an empty (falsy) one,
is rendered from the stderr stream, not from the field: the claim's
predicted text would be `Error: ` (the error field), but the code renders
`Error: boom` (the stderr). -/
theorem claim6_error_field_counterexample :
    jsonParse "\x7b\"error\":\"\"\x7d" = .ok (JsVal.obj [("error", JsVal.str "")]) ∧
    rememberText ⟨false, "\x7b\"error\":\"\"\x7d", "boom"⟩ = .ok "Error: boom" ∧
    (("Error: boom" == "Error: ") = false) :=
  ⟨rfl, rfl, rfl⟩

/-- Claim C6 amended: for every tool, a failed result whose stdout parses
to a value whose `error` field is truthy (in particular, a non-empty
string) renders `Error: {that field}`, preferring it over stderr; stderr
is used when the field is absent or falsy (e.g. the empty string). -/
theorem claim6_error_field_amended (res : CliResult) (data err : JsVal)
    (h1 : res.success = false)
    (h2 : jsonParse res.stdout = .ok data)
    (h3 : jsGet data "error" = .ok err)
    (h4 : truthy err = true) :
    rememberText res = .ok ("Error: " ++ jsToString err) ∧
    recallText res = .ok ("Error: " ++ jsToString err) ∧
    listText res = .ok ("Error: " ++ jsToString err) ∧
    statsText res = .ok ("Error: " ++ jsToString err) ∧
    createText res = .ok ("Error: " ++ jsToString err) := by
  refine ⟨?_, ?_, ?_, ?_, ?_⟩ <;>
    simp [rememberText, recallText, listText, statsText, createText,
      h1, h2, h3, jsOr, h4, exceptBindOk]

/-- Claim C6 amended witness: the spec's worked example, stdout
`\x7b"error":"File not found"\x7d`, renders `Error: File not found` for
every tool. -/
theorem claim6_error_field_amended_witness :
    rememberText ⟨false, "\x7b\"error\":\"File not found\"\x7d", "raw"⟩ =
        .ok "Error: File not found" ∧
    recallText ⟨false, "\x7b\"error\":\"File not found\"\x7d", "raw"⟩ =
        .ok "Error: File not found" ∧
    listText ⟨false, "\x7b\"error\":\"File not found\"\x7d", "raw"⟩ =
        .ok "Error: File not found" ∧
    statsText ⟨false, "\x7b\"error\":\"File not found\"\x7d", "raw"⟩ =
        .ok "Error: File not found" ∧
    createText ⟨false, "\x7b\"error\":\"File not found\"\x7d", "raw"⟩ =
        .ok "Error: File not found" :=
  claim6_error_field_amended ⟨false, "\x7b\"error\":\"File not found\"\x7d", "raw"⟩
    (JsVal.obj [("error", JsVal.str "File not found")])
    (JsVal.str "File not found") rfl rfl rfl rfl

/-- Claim C7 counterexample: when the binary cannot be started, the
invoker does resolve with `succeeded = false`, empty stdout and the
operating-system message as stderr — but the final response then reports
the JSON-parse failure of the empty stdout (`Error: Unexpected end of
JSON input`), not the operating-system message the claim asserts. -/
theorem claim7_launch_error_counterexample :
    runCli (ProcOutcome.launchError "spawn memvid ENOENT") =
      ⟨false, "", "spawn memvid ENOENT"⟩ ∧
    (handleCallTool ⟨"", "memvid"⟩
        (fun _ => ProcOutcome.launchError "spawn memvid ENOENT")
        "memory_remember"
        (some [("path", JsVal.str "/m.mv2"), ("content", JsVal.str "x")])).1 =
      mkText "Error: Unexpected end of JSON input" ∧
    (("Error: Unexpected end of JSON input" == "Error: spawn memvid ENOENT")
      = false) :=
  ⟨rfl, rfl, rfl⟩

/-- Claim C7 amended: the process invoker always resolves a launch error
to `succeeded = false`, empty captured stdout, and the operating-system
message as captured stderr; the tool call's final response is a single
`Error:` response, but it reports the failure to parse the empty stdout
(`Unexpected end of JSON input`), not the underlying operating-system
message. -/
theorem claim7_launch_error_amended :
    (∀ m, runCli (ProcOutcome.launchError m) = ⟨false, "", m⟩) ∧
    (∀ (cfg : Config) (m : String),
      (handleCallTool cfg (fun _ => ProcOutcome.launchError m)
          "memory_remember"
          (some [("path", JsVal.str "/m.mv2"), ("content", JsVal.str "x")])).1 =
        mkText ("Error: " ++ jsonEndMsg)) :=
  ⟨fun _ => rfl, fun _ _ => rfl⟩

/-- Claim C8: dispatching any name outside the registry spawns no
subprocess (empty spawn trace) and returns `Unknown tool: {name}`. -/
theorem claim8_unknown_tool (cfg : Config) (env : ProcEnv) (args : Option Bag)
    (name : String) (h : name ∉ TOOLS.map ToolDef.name) :
    handleCallTool cfg env name args =
      (mkText ("Unknown tool: " ++ name), []) := by
  simp only [TOOLS, List.map_cons, List.map_nil, List.mem_cons,
    List.not_mem_nil, or_false, not_or] at h
  obtain ⟨h1, h2, h3, h4, h5⟩ := h
  have hinner : callToolInner cfg env name args =
      (.ok (mkText ("Unknown tool: " ++ name)), []) := by
    unfold callToolInner
    split <;> simp_all
  simp [handleCallTool, hinner, wrapError]

/-- Claim C8 witness: a concrete unregistered name. -/
theorem claim8_unknown_tool_witness :
    handleCallTool ⟨"", "memvid"⟩ (fun _ => ProcOutcome.close (some 0) "" "")
        "memory_forget" none =
      (mkText "Unknown tool: memory_forget", []) :=
  claim8_unknown_tool ⟨"", "memvid"⟩ (fun _ => ProcOutcome.close (some 0) "" "")
    none "memory_forget" (by decide)

/-- Claim C9 counterexample: for `memory_recall` with a present `limit`
of `0` (falsy), the compiled vector contains no `--limit` pair, so
presence of the argument alone does not govern flag emission. -/
theorem claim9_flag_presence_counterexample :
    (handleCallTool ⟨"", "memvid"⟩ (fun _ => ProcOutcome.launchError "x")
        "memory_recall"
        (some [("path", JsVal.str "/m.mv2"), ("query", JsVal.str "q"),
               ("limit", JsVal.num 0)])).2 =
      [[JsVal.str "search", JsVal.str "/m.mv2", JsVal.str "q"]] ∧
    (((handleCallTool ⟨"", "memvid"⟩ (fun _ => ProcOutcome.launchError "x")
        "memory_recall"
        (some [("path", JsVal.str "/m.mv2"), ("query", JsVal.str "q"),
               ("limit", JsVal.num 0)])).2.map
          (fun a => a.map jsToString)).any
        (fun a => a.contains "--limit") = false) :=
  ⟨rfl, rfl⟩

/-- Claim C9 amended: the `--scope`/`--limit` pair (for `memory_recall`)
and the `--limit`/`--since`/`--until` pairs (for `memory_list`) are
emitted, with the flag value stringified where the source stringifies it,
if and only if the corresponding argument is present with a truthy value
(for numbers: nonzero; absent arguments are undefined, hence falsy). -/
theorem claim9_flag_presence_amended (cfg : Config) (env : ProcEnv) :
    (∀ scopeV limitV : JsVal,
      (handleCallTool cfg env "memory_recall"
          (some [("path", JsVal.str "/m.mv2"), ("query", JsVal.str "q"),
                 ("scope", scopeV), ("limit", limitV)])).2 =
        [JsVal.str "search" :: JsVal.str "/m.mv2" :: JsVal.str "q" ::
          ((if truthy scopeV then [JsVal.str "--scope", scopeV] else []) ++
            (if truthy limitV then
              [JsVal.str "--limit", JsVal.str (jsToString limitV)] else []))]) ∧
    ((handleCallTool cfg env "memory_recall"
        (some [("path", JsVal.str "/m.mv2"), ("query", JsVal.str "q")])).2 =
      [[JsVal.str "search", JsVal.str "/m.mv2", JsVal.str "q"]]) ∧
    (∀ l s u : JsVal,
      (handleCallTool cfg env "memory_list"
          (some [("path", JsVal.str "/m.mv2"), ("limit", l), ("since", s),
                 ("until", u)])).2 =
        [JsVal.str "timeline" :: JsVal.str "/m.mv2" ::
          ((if truthy l then
              [JsVal.str "--limit", JsVal.str (jsToString l)] else []) ++
            (if truthy s then
              [JsVal.str "--since", JsVal.str (jsToString s)] else []) ++
            (if truthy u then
              [JsVal.str "--until", JsVal.str (jsToString u)] else []))]) ∧
    ((handleCallTool cfg env "memory_list"
        (some [("path", JsVal.str "/m.mv2")])).2 =
      [[JsVal.str "timeline", JsVal.str "/m.mv2"]]) := by
  have hp : "/m.mv2".isEmpty = false := rfl
  refine ⟨?_, ?_, ?_, ?_⟩
  all_goals
    intros
    simp [handleCallTool, callToolInner, recallCase, listCase, resolvePath,
      truthy, bagGet, lookupField, flagIf, flagStrIf, hp]

/-- Claim C10: a non-array `tags` value is silently ignored by
`memory_remember`: the whole dispatch result (response and spawn trace)
is identical to the one for the same bag without `tags`, the compiled
vector carries no `-t` pair, and no error is raised. -/
theorem claim10_tags_non_array (cliPath : String) (env : ProcEnv) (v : JsVal)
    (h : ∀ xs, v ≠ JsVal.arr xs) :
    handleCallTool ⟨"/m.mv2", cliPath⟩ env "memory_remember"
        (some [("content", JsVal.str "x"), ("tags", v)]) =
      handleCallTool ⟨"/m.mv2", cliPath⟩ env "memory_remember"
        (some [("content", JsVal.str "x")]) ∧
    (handleCallTool ⟨"/m.mv2", cliPath⟩ env "memory_remember"
        (some [("content", JsVal.str "x"), ("tags", v)])).2 =
      [[JsVal.str "put", JsVal.str "/m.mv2", JsVal.str "--content",
        JsVal.str "x"]] := by
  have htf : tagFlags v = [] := by
    cases v <;> first | rfl | exact (h _ rfl).elim
  have hx : "x".isEmpty = false := rfl
  constructor
  all_goals
    simp [handleCallTool, callToolInner, rememberCase, resolvePath, truthy,
      bagGet, lookupField, flagIf, tagFlags, htf, hx]

/-- Claim C10 witness: a string-valued `tags` field at a concrete input. -/
theorem claim10_tags_non_array_witness :
    handleCallTool ⟨"/m.mv2", "memvid"⟩ (fun _ => ProcOutcome.launchError "e")
        "memory_remember"
        (some [("content", JsVal.str "x"), ("tags", JsVal.str "not-an-array")]) =
      handleCallTool ⟨"/m.mv2", "memvid"⟩ (fun _ => ProcOutcome.launchError "e")
        "memory_remember" (some [("content", JsVal.str "x")]) ∧
    (handleCallTool ⟨"/m.mv2", "memvid"⟩ (fun _ => ProcOutcome.launchError "e")
        "memory_remember"
        (some [("content", JsVal.str "x"),
               ("tags", JsVal.str "not-an-array")])).2 =
      [[JsVal.str "put", JsVal.str "/m.mv2", JsVal.str "--content",
        JsVal.str "x"]] :=
  claim10_tags_non_array "memvid" (fun _ => ProcOutcome.launchError "e")
    (JsVal.str "not-an-array") (fun _ h => JsVal.noConfusion h)

end Memvid
